import Mathlib

/-!
Verification development for the `ikorka_bot` conversational order-intake bot.

The repository contains two near-identical handler variants:
* `src/app/order/handler.py` — the "app" variant: per-message idle check,
  strict positive-integer quantity validation, no database (operator message only);
* `src/handler.py` (duplicated with mojibake in `src/order/handler.py`) — the
  "db" variant: no idle check, permissive free-text quantity, persists orders
  via `db.insert_order` and stamps two timezone conversions of one UTC instant.

Both are routed by `src/app/order/routes.py` (`build_router`): a registration-
ordered dispatch with a catch-all fallback that clears the FSM state.

The aiogram `FSMContext` is modelled as a `Session`: an optional state, the
collected data keys, and the `last_activity_at` timestamp (stored by the code
in the same FSM data dict; split out here as its own field for clarity —
`state.clear()` clears all of them together, as in aiogram).  Machine time is
modelled as `Int` unix seconds; `time.time()` values stored and compared by
the idle monitor only ever flow through integer truncation (`int(...)`) in the
source, so integer seconds are faithful for every claim below.  Network sends
and the database insert are external effects: sends are recorded in an effect
list, and the insert outcome is an `Except`-valued oracle parameter.
-/

namespace IkorkaBot

/-! ## Python-style string helpers -/

/-- Python truthiness of `str`: empty string is falsy. -/
def pyTruthy (s : String) : Bool := !(s == "")

/-- Python `x or d` for an optional string `x` (as in `data.get(k) or d`):
`None` and `""` fall back to the default. -/
def pyOrDefault (v : Option String) (d : String) : String :=
  match v with
  | none => d
  | some s => if s == "" then d else s

/-- Python f-string rendering of an `Optional[str]` value: `None` renders as
the literal text `None`, a string renders verbatim. -/
def pyShowOptStr : Option String → String
  | none => "None"
  | some s => s

/-- Python `str.isspace()` / the character set `str.strip()` removes: the
Unicode whitespace code points (this set is small and closed, so it is
encoded exactly). -/
def pyIsSpace (c : Char) : Bool :=
  let n := c.toNat
  decide ((0x09 ≤ n ∧ n ≤ 0x0D) ∨ (0x1C ≤ n ∧ n ≤ 0x1F) ∨ n = 0x20 ∨
    n = 0x85 ∨ n = 0xA0 ∨ n = 0x1680 ∨ (0x2000 ≤ n ∧ n ≤ 0x200A) ∨
    n = 0x2028 ∨ n = 0x2029 ∨ n = 0x202F ∨ n = 0x205F ∨ n = 0x3000)

/-- How a character behaves under Python's numeric predicates:
`decimal v` — a decimal digit (Unicode `Nd`) of value `v`: `isdigit()` is
true and `int()` accepts it; `digitOnly` — has the digit property but is
not a decimal digit (e.g. the superscript `²`): `isdigit()` is true but
`int()` raises `ValueError`; `other` — `isdigit()` is false. -/
inductive DigitClass
  | decimal (v : Nat)
  | digitOnly
  | other
deriving DecidableEq

/-- Python's per-character numeric classification, implemented exactly on a
documented repertoire: all of ASCII, the decimal-digit (`Nd`) ranges
Arabic-Indic, Extended Arabic-Indic, Devanagari, Bengali, Thai and
Fullwidth, and the digit-property superscripts/subscripts.  Characters
outside `charClassExact` below are conservatively classified `other`. -/
def charDigitClass (c : Char) : DigitClass :=
  let n := c.toNat
  if 0x30 ≤ n ∧ n ≤ 0x39 then .decimal (n - 0x30)
  else if 0x660 ≤ n ∧ n ≤ 0x669 then .decimal (n - 0x660)
  else if 0x6F0 ≤ n ∧ n ≤ 0x6F9 then .decimal (n - 0x6F0)
  else if 0x966 ≤ n ∧ n ≤ 0x96F then .decimal (n - 0x966)
  else if 0x9E6 ≤ n ∧ n ≤ 0x9EF then .decimal (n - 0x9E6)
  else if 0xE50 ≤ n ∧ n ≤ 0xE59 then .decimal (n - 0xE50)
  else if 0xFF10 ≤ n ∧ n ≤ 0xFF19 then .decimal (n - 0xFF10)
  else if n = 0xB2 ∨ n = 0xB3 ∨ n = 0xB9 then .digitOnly
  else if n = 0x2070 ∨ (0x2074 ≤ n ∧ n ≤ 0x2079) then .digitOnly
  else if 0x2080 ≤ n ∧ n ≤ 0x2089 then .digitOnly
  else .other

/-- The character repertoire on which `charDigitClass` agrees with Python's
classification; statements about the strict quantity validation are scoped
to inputs drawn from it. -/
def charClassExact (c : Char) : Bool :=
  let n := c.toNat
  decide (n ≤ 0x7F ∨ (0x660 ≤ n ∧ n ≤ 0x669) ∨ (0x6F0 ≤ n ∧ n ≤ 0x6F9) ∨
    (0x966 ≤ n ∧ n ≤ 0x96F) ∨ (0x9E6 ≤ n ∧ n ≤ 0x9EF) ∨
    (0xE50 ≤ n ∧ n ≤ 0xE59) ∨ (0xFF10 ≤ n ∧ n ≤ 0xFF19) ∨
    n = 0xB2 ∨ n = 0xB3 ∨ n = 0xB9 ∨ n = 0x2070 ∨
    (0x2074 ≤ n ∧ n ≤ 0x2079) ∨ (0x2080 ≤ n ∧ n ≤ 0x2089))

/-- Python `s.isdigit()`: nonempty and every character has the digit
property (decimal or digit-only). -/
def pyIsDigit (s : String) : Bool :=
  !s.toList.isEmpty &&
    s.toList.all (fun c =>
      match charDigitClass c with
      | .other => false
      | _ => true)

/-- Python `int(s)` on a stripped, sign-free string: `some` of the decimal
value when every character is a decimal digit, `none` (a raised
`ValueError`) otherwise — in particular on digit-property characters such
as `²` that `isdigit()` nonetheless accepts. -/
def pyIntParse (s : String) : Option Nat :=
  if s.toList.isEmpty then none
  else
    s.toList.foldl
      (fun acc c =>
        match acc, charDigitClass c with
        | some n, .decimal v => some (n * 10 + v)
        | _, _ => none)
      (some 0)

/-- Python `s.strip()`: drop leading and trailing Unicode whitespace.
Implemented over the character list so that it evaluates by kernel
reduction. -/
def pyStrip (s : String) : String :=
  String.mk
    (((s.toList.dropWhile pyIsSpace).reverse.dropWhile pyIsSpace).reverse)

/-- `(s or "").strip() or "—"`: trim, then placeholder when empty. -/
def stripOrDash (s : String) : String :=
  let t := pyStrip s
  if t == "" then "—" else t

/-- `(v or "").strip() or "—"` for an optional string. -/
def optStripOrDash : Option String → String
  | none => "—"
  | some s => stripOrDash s

/-- List-based prefix test used to keep everything kernel-reducible. -/
def charsHavePrefix : List Char → List Char → Bool
  | _, [] => true
  | [], _ :: _ => false
  | c :: cs, d :: ds => c == d && charsHavePrefix cs ds

/-- Substring containment (needle occurs contiguously in the haystack). -/
def charsContain (hay needle : List Char) : Bool :=
  match hay with
  | [] => needle.isEmpty
  | _ :: t => charsHavePrefix hay needle || charsContain t needle

/-- `needle` occurs as a contiguous substring of `hay`. -/
def strContains (hay needle : String) : Bool :=
  charsContain hay.toList needle.toList

/-- `s` starts with `p`. -/
def strStartsWith (s p : String) : Bool :=
  charsHavePrefix s.toList p.toList

/-! ## Data model: session, messages, effects -/

/-- `OrderStates` from `src/app/order/states.py`. -/
inductive OrderState
  | waiting_for_order_start
  | waiting_for_contact
  | waiting_for_quantity
  | waiting_for_name
  | waiting_for_address
  | waiting_for_phone
  | waiting_for_manual_phone
  | waiting_for_extra_info
deriving DecidableEq

/-- A `last_activity_at` value as it may come back from FSM storage: a number
(`time.time()` float, modelled as integer seconds), or a string that either
parses as a number (`strOk`) or does not (`strBad`). -/
inductive StoredTime
  | num (t : Int)
  | strOk (t : Int)
  | strBad
deriving DecidableEq

/-- What `float(str(last_activity_at))` yields: `none` models the exception. -/
def parseStoredTime : StoredTime → Option Int
  | .num t => some t
  | .strOk t => some t
  | .strBad => none

/-- The collected order fields held in the FSM data dict
(`phone`, `manual_phone`, `quantity`, `full_name`, `address`).
`none` = key absent or stored `None` (the code only reads them with `.get`). -/
structure SessionData where
  phone : Option String := none
  manual_phone : Option String := none
  quantity : Option String := none
  full_name : Option String := none
  address : Option String := none
deriving DecidableEq

/-- An aiogram `FSMContext` snapshot: FSM state, collected data keys, and the
`last_activity_at` timestamp. -/
structure Session where
  state : Option OrderState := none
  data : SessionData := {}
  last_activity_at : Option StoredTime := none
deriving DecidableEq

/-- `state.clear()`: clears the FSM state and all data keys. -/
def clearSession : Session := {}

/-- `state.set_state(st)`. -/
def setState (s : Session) (st : OrderState) : Session :=
  { s with state := some st }

/-- `state.update_data(last_activity_at=time.time())` (`_touch_activity`). -/
def touch_activity (s : Session) (now : Int) : Session :=
  { s with last_activity_at := some (.num now) }

def setPhone (s : Session) (v : Option String) : Session :=
  { s with data := { s.data with phone := v } }

def setManualPhone (s : Session) (v : Option String) : Session :=
  { s with data := { s.data with manual_phone := v } }

def setQuantity (s : Session) (v : Option String) : Session :=
  { s with data := { s.data with quantity := v } }

def setFullName (s : Session) (v : Option String) : Session :=
  { s with data := { s.data with full_name := v } }

def setAddress (s : Session) (v : Option String) : Session :=
  { s with data := { s.data with address := v } }

/-- A Telegram shared-contact payload (the parts the code reads). -/
structure Contact where
  user_id : Option Int
  phone_number : String
deriving DecidableEq

/-- `not contact.user_id` in Python: falsy when absent or zero. -/
def truthyUserId : Option Int → Bool
  | none => false
  | some n => !(n == 0)

/-- The requesting Telegram user (the attributes the code reads). -/
structure TgUser where
  id : Int
  full_name : String
  username : Option String
deriving DecidableEq

/-- An inbound message envelope: optional text, optional contact payload,
and the sending user. -/
structure Msg where
  text : Option String
  contact : Option Contact
  from_user : TgUser
deriving DecidableEq

/-- Outbound effects the handlers can emit. -/
inductive Effect
  | reply (text : String)
  | sendToChannel (text : String)
deriving DecidableEq

/-! ## Button labels and reply texts

The button labels come from `app/order/consts.py`, which is imported by the
routers and handlers but absent from the sources; their exact values are
irrelevant to every claim (they act only as routing labels), so they are
modelled as distinct constants. -/

def START_ORDER_BUTTON_TEXT : String := "Сделать заказ"
def FAQ_BUTTON_TEXT : String := "FAQ"
def NEW_ORDER_BUTTON_TEXT : String := "Новый заказ"

def idleTimeoutText : String :=
  "Похоже, вы были в простое более 9 минут. Чтобы начать заново, отправьте /start"

def startGreetingText : String :=
  "Привет! Нажмите «Сделать заказ», чтобы начать оформление."

def contactPromptText : String :=
  "Нажмите на кнопку \"Поделиться контактом\", чтобы мы могли с вами связаться."

def contactRetryText : String :=
  "Не удалось получить контакт. Попробуйте ещё раз нажать «Поделиться контактом»."

def quantityRejectText : String :=
  "Пожалуйста, введите положительное число, например: 2"

def namePromptText : String := "Укажите ФИО получателя"

def addressPromptText : String :=
  "Укажите адрес доставки (город, улица, дом, кв., подъезд, этаж)"

def phonePromptText : String := "Укажите номер телефона для связи"

def extraInfoPromptText : String :=
  "Добавьте дополнительную информацию по заказу (по желанию). Если нет — отправьте «-»."

def orderFailText : String :=
  "Не удалось принять заказ. Попробуйте ещё раз позже."

def orderAcceptedText : String :=
  "Заказ принят в обработку! Ждите ответа от администратора."

def fallbackText : String :=
  "⚠️ Мы обновили бота. Пожалуйста, начните заново — /start"

/-- The notice sent by the router's `errors_handler` (same wording as the
fallback) before it clears the FSM state of a session whose handler
raised. -/
def errorsRestartText : String :=
  "⚠️ Мы обновили бота. Пожалуйста, начните заново — /start"

/-- Static FAQ text (content elided: it is inert storefront prose that no
claim depends on). -/
def faqText : String := "Где и когда была произведена икра?"

/-- Static product-list prompt after a successful contact share (content
elided: inert storefront prose). -/
def quantityPromptText : String := "Укажите количество упаковок (по 500 г)."

/-! ## Idle monitor (`src/app/order/handler.py`) -/

/-- `_IDLE_THRESHOLD_SECONDS = 9 * 60`. -/
def IDLE_THRESHOLD_SECONDS : Int := 9 * 60

/-- `idle_seconds = max(0, int(time.time() - float(last_activity_at)))`. -/
def idleSecondsOf (now last : Int) : Int := max 0 (now - last)

/-- Result of `_check_and_handle_idle`: the session afterwards, the effects
emitted, and whether the message was handled (i.e. discarded). -/
structure IdleCheck where
  session : Session
  effects : List Effect
  handled : Bool
deriving DecidableEq

/-- `_check_and_handle_idle(message, state)`. -/
def check_and_handle_idle (s : Session) (now : Int) : IdleCheck :=
  match s.last_activity_at with
  | none => ⟨touch_activity s now, [], false⟩
  | some tv =>
    match parseStoredTime tv with
    | none => ⟨touch_activity s now, [], false⟩
    | some last =>
      if idleSecondsOf now last ≥ IDLE_THRESHOLD_SECONDS then
        ⟨clearSession, [.reply idleTimeoutText], true⟩
      else
        ⟨s, [], false⟩

/-! ## App-variant handlers (`src/app/order/handler.py`) -/

/-- `_normalize_phone`: `None`/`""` → `"—"`, else `phone.strip() or "—"`. -/
def normalize_phone : Option String → String
  | none => "—"
  | some p =>
    if p == "" then "—"
    else
      let t := pyStrip p
      if t == "" then "—" else t

/-- `_build_order_message_for_user` (app variant: single phone slot,
no order id, no timestamps). -/
def build_order_message_for_user_app (user : TgUser) (quantity_text : String)
    (name_text : String) (address_text : String) (phone_text : Option String)
    (extra_info_text : Option String) : String :=
  let username := match user.username with
    | some un => "@" ++ un
    | none => "—"
  let profile_link := "tg://user?id=" ++ toString user.id
  "Новый заказ\n\n" ++
  "Имя в Telegram: " ++ user.full_name ++ "\n" ++
  "Username: " ++ username ++ "\n" ++
  "User ID: " ++ toString user.id ++ "\n" ++
  "Профиль: " ++ profile_link ++ "\n\n" ++
  "Телефон: " ++ normalize_phone phone_text ++ "\n" ++
  "ФИО получателя: " ++ stripOrDash name_text ++ "\n" ++
  "Адрес: " ++ stripOrDash address_text ++ "\n" ++
  "Количество: " ++ stripOrDash quantity_text ++ "\n" ++
  "Доп. информация: " ++ optStripOrDash extra_info_text

/-- `OrderHandler.handle_start` (app variant): clear, enter
`waiting_for_order_start`, touch activity, greet. -/
def handle_start_app (now : Int) : Session × List Effect :=
  (touch_activity (setState clearSession .waiting_for_order_start) now,
   [.reply startGreetingText])

/-- `OrderHandler.handle_start_order` (app variant). -/
def handle_start_order_app (s : Session) (now : Int) : Session × List Effect :=
  let c := check_and_handle_idle s now
  if c.handled then (c.session, c.effects)
  else
    (setState (touch_activity c.session now) .waiting_for_contact,
     [.reply contactPromptText])

/-- `OrderHandler.handle_contact` (app variant): idle check, touch, then
accept the contact iff `contact` is present with a truthy `user_id`;
otherwise re-prompt without changing state or fields. -/
def handle_contact_app (s : Session) (m : Msg) (now : Int) : Session × List Effect :=
  let c := check_and_handle_idle s now
  if c.handled then (c.session, c.effects)
  else
    let s1 := touch_activity c.session now
    match m.contact with
    | none => (s1, [.reply contactRetryText])
    | some ct =>
      if truthyUserId ct.user_id then
        (setState (setPhone s1 (some ct.phone_number)) .waiting_for_quantity,
         [.reply quantityPromptText])
      else (s1, [.reply contactRetryText])

/-- An exception escaping a handler (the `ValueError` that `int()` raises on
a digit-property, non-decimal string); it propagates to the router's
`errors_handler`. -/
inductive PyError
  | valueError
deriving DecidableEq

/-- `OrderHandler.handle_quantity` (app variant, strict validation), with
Python's short-circuit evaluation of `not text.isdigit() or int(text) <= 0`:
when `isdigit()` fails the input is re-prompted without calling `int()`;
when `isdigit()` passes, `int(text)` is evaluated and may raise
`ValueError` (returned as `.error`, uncaught in the handler); a parsed
value `<= 0` is re-prompted, and a positive value is stored. -/
def handle_quantity_app (s : Session) (m : Msg) (now : Int) :
    Except PyError (Session × List Effect) :=
  let c := check_and_handle_idle s now
  if c.handled then .ok (c.session, c.effects)
  else
    match m.text with
    | none => .ok (c.session, [])
    | some raw =>
      let text := pyStrip raw
      if !pyIsDigit text then
        .ok (c.session, [.reply quantityRejectText])
      else
        match pyIntParse text with
        | none => .error .valueError
        | some v =>
          if v ≤ 0 then
            .ok (c.session, [.reply quantityRejectText])
          else
            .ok (setState (setQuantity (touch_activity c.session now) (some text))
                   .waiting_for_name,
                 [.reply namePromptText])

/-- `OrderHandler.handle_name` (app variant). -/
def handle_name_app (s : Session) (m : Msg) (now : Int) : Session × List Effect :=
  let c := check_and_handle_idle s now
  if c.handled then (c.session, c.effects)
  else
    match m.text with
    | none => (c.session, [])
    | some raw =>
      (setState (setFullName (touch_activity c.session now) (some (pyStrip raw)))
         .waiting_for_address,
       [.reply addressPromptText])

/-- `OrderHandler.handle_address` (app variant). -/
def handle_address_app (s : Session) (m : Msg) (now : Int) : Session × List Effect :=
  let c := check_and_handle_idle s now
  if c.handled then (c.session, c.effects)
  else
    match m.text with
    | none => (c.session, [])
    | some raw =>
      (setState (setAddress (touch_activity c.session now) (some (pyStrip raw)))
         .waiting_for_phone,
       [.reply phonePromptText])

/-- The phone value chosen by `handle_phone` (app variant): a contact
payload's truthy phone wins over the message text; `None` when neither. -/
def phoneChoice (m : Msg) : Option String :=
  let fromText : Option String :=
    match m.text with
    | some t => if pyTruthy t then some (pyStrip t) else none
    | none => none
  match m.contact with
  | some ct => if pyTruthy ct.phone_number then some ct.phone_number else fromText
  | none => fromText

/-- `OrderHandler.handle_phone` (app variant): stores `phoneChoice` under the
same `phone` data key that `handle_contact` wrote, then advances. -/
def handle_phone_app (s : Session) (m : Msg) (now : Int) : Session × List Effect :=
  let c := check_and_handle_idle s now
  if c.handled then (c.session, c.effects)
  else
    (setState (setPhone (touch_activity c.session now) (phoneChoice m))
       .waiting_for_extra_info,
     [.reply extraInfoPromptText])

/-- `"-"` → `""` normalization of the extra-info text. -/
def extraOf (m : Msg) : String :=
  let e := pyStrip (m.text.getD "")
  if e == "-" then "" else e

/-- `OrderHandler.handle_extra_info` (app variant): builds the operator
message from the session data (`phone` key only) and sends it; `sendOk`
models whether `_resolve_target_channel_id` + `bot.send_message` succeed.
On failure: failure reply, session untouched.  On success: clear + confirm. -/
def handle_extra_info_app (s : Session) (m : Msg) (now : Int) (sendOk : Bool) :
    Session × List Effect :=
  let c := check_and_handle_idle s now
  if c.handled then (c.session, c.effects)
  else
    let f := c.session.data
    let formatted := build_order_message_for_user_app m.from_user
      (pyOrDefault f.quantity "—") (pyOrDefault f.full_name "—")
      (pyOrDefault f.address "—") f.phone (some (extraOf m))
    if sendOk then
      (clearSession, [.sendToChannel formatted, .reply orderAcceptedText])
    else
      (c.session, [.reply orderFailText])

/-- `OrderHandler.handle_new_order` (app variant): idle check then restart. -/
def handle_new_order_app (s : Session) (now : Int) : Session × List Effect :=
  let c := check_and_handle_idle s now
  if c.handled then (c.session, c.effects)
  else handle_start_app now

/-! ## Router (`src/app/order/routes.py`, `build_router`)

Handlers are tried in registration order; the first whose filters match
wins; the catch-all fallback clears the FSM state. -/

/-- `CommandStart()`: the text is the `/start` command. -/
def isStartCommand (m : Msg) : Bool :=
  match m.text with
  | some t => t == "/start" || strStartsWith t "/start " || strStartsWith t "/start@"
  | none => false

/-- `F.text == lbl`. -/
def textEquals (m : Msg) (lbl : String) : Bool := m.text == some lbl

/-- `F.text` (truthy text present). -/
def msgTextTruthy (m : Msg) : Bool :=
  match m.text with
  | some t => pyTruthy t
  | none => false

/-- Per-message environment for the app-variant router: the inbound message,
the current time, and whether the operator-channel send would succeed. -/
structure EnvApp where
  msg : Msg
  now : Int
  sendOk : Bool

/-- One router dispatch for the app-variant handlers, following the
registration order in `build_router` with its catch-all fallback. -/
def routerStepApp (s : Session) (e : EnvApp) : Session × List Effect :=
  if isStartCommand e.msg then handle_start_app e.now
  else if textEquals e.msg FAQ_BUTTON_TEXT then (s, [.reply faqText])
  else if (s.state == some OrderState.waiting_for_order_start) &&
      textEquals e.msg START_ORDER_BUTTON_TEXT then handle_start_order_app s e.now
  else if e.msg.contact.isSome && (s.state == some OrderState.waiting_for_contact) then
    handle_contact_app s e.msg e.now
  else if (s.state == some OrderState.waiting_for_quantity) && msgTextTruthy e.msg then
    match handle_quantity_app s e.msg e.now with
    | .ok r => r
    | .error _ => (clearSession, [.reply errorsRestartText])
  else if (s.state == some OrderState.waiting_for_name) && msgTextTruthy e.msg then
    handle_name_app s e.msg e.now
  else if (s.state == some OrderState.waiting_for_address) && msgTextTruthy e.msg then
    handle_address_app s e.msg e.now
  else if (s.state == some OrderState.waiting_for_phone) && msgTextTruthy e.msg then
    handle_phone_app s e.msg e.now
  else if (s.state == some OrderState.waiting_for_extra_info) && msgTextTruthy e.msg then
    handle_extra_info_app s e.msg e.now e.sendOk
  else if textEquals e.msg NEW_ORDER_BUTTON_TEXT then handle_new_order_app s e.now
  else (clearSession, [.reply fallbackText])

/-! ## Db-variant handlers (`src/handler.py`) and order persistence -/

/-- Fixed UTC offset of `Europe/Moscow` (no DST), in seconds. -/
def moscowOffsetSeconds : Int := 3 * 3600

/-- Fixed UTC offset of `Asia/Vladivostok` (the zone the code uses for the
Khabarovsk column; no DST), in seconds. -/
def vladivostokOffsetSeconds : Int := 10 * 3600

/-- The two zoned representations derived in `handle_extra_info` from the one
`now_utc = datetime.now(tz=ZoneInfo("UTC"))` capture: local wall-clock
instants for Moscow and Khabarovsk/Vladivostok. -/
def orderTimestamps (nowUtc : Int) : Int × Int :=
  (nowUtc + moscowOffsetSeconds, nowUtc + vladivostokOffsetSeconds)

/-- Abstraction of `strftime("%Y-%m-%d %H:%M")` on a zoned instant; the
textual calendar rendering is irrelevant to every claim, only the instant
it renders matters. -/
def fmtTime (t : Int) : String := toString t

/-- The row handed to `db.insert_order` (the persisted order record). -/
structure OrderRec where
  tg_user_id : Int
  full_name : String
  username : Option String
  profile_link : String
  phone_contact : Option String
  phone_manual : Option String
  fio_receiver : String
  address : String
  quantity : String
  extra_info : String
  datetime_moscow : Int
  datetime_khabarovsk : Int
deriving DecidableEq

/-- `_build_order_message_for_user` (db variant): order id, both timestamps,
and both phone slots side by side.  Note the asymmetry taken verbatim from
the source: the contact phone goes through `_normalize_phone`, the manual
phone is interpolated raw into the f-string. -/
def build_order_message_for_user (user : TgUser) (quantity_text : String)
    (name_text : String) (address_text : String) (phone_text : Option String)
    (manual_phone_text : Option String) (extra_info_text : Option String)
    (datetime_moscow : String) (datetime_khabarovsk : String)
    (order_id : Int) : String :=
  let username := match user.username with
    | some un => "@" ++ un
    | none => "—"
  "Новый заказ № " ++ toString order_id ++ " \n\n" ++
  "Время Москва " ++ datetime_moscow ++ "\n" ++
  "Время Хабаровск " ++ datetime_khabarovsk ++ "\n\n" ++
  "Имя в Telegram: " ++ user.full_name ++ "\n" ++
  "Username: " ++ username ++ "\n" ++
  "User ID: " ++ toString user.id ++ "\n" ++
  "Телефон (контакт): " ++ normalize_phone phone_text ++ "\n" ++
  "Телефон (ручной ввод): " ++ pyShowOptStr manual_phone_text ++ "\n" ++
  "ФИО получателя: " ++ stripOrDash name_text ++ "\n" ++
  "Адрес: " ++ stripOrDash address_text ++ "\n" ++
  "Заказ: " ++ stripOrDash quantity_text ++ "\n" ++
  "Доп. информация: " ++ optStripOrDash extra_info_text

/-- The `OrderRec` that `handle_extra_info` (db variant) passes to
`insert_order`, built from the session data, the message and the single
`now_utc` capture. -/
def mkOrderRec (s : Session) (m : Msg) (nowUtc : Int) : OrderRec :=
  let u := m.from_user
  { tg_user_id := u.id
    full_name := u.full_name
    username := u.username
    profile_link := toString u.id
    phone_contact := s.data.phone
    phone_manual := s.data.manual_phone
    fio_receiver := pyOrDefault s.data.full_name "—"
    address := pyOrDefault s.data.address "—"
    quantity := pyOrDefault s.data.quantity "—"
    extra_info := extraOf m
    datetime_moscow := (orderTimestamps nowUtc).1
    datetime_khabarovsk := (orderTimestamps nowUtc).2 }

/-- Result of the db-variant final step: the session afterwards, the effects,
and the persisted order row (`none` when the insert raised). -/
structure DbOut where
  session : Session
  effects : List Effect
  persisted : Option OrderRec
deriving DecidableEq

/-- Lift an effect-only handler result into `DbOut` (nothing persisted). -/
def liftDb (p : Session × List Effect) : DbOut := ⟨p.1, p.2, none⟩

/-- `OrderHandler.handle_extra_info` (db variant).  `insertRes` is the
outcome of `insert_order` (`.ok order_id` or `.error` for a raised
exception); `sendOk` covers `_resolve_target_channel_id` and
`bot.send_message`.  Any exception inside the `try` block yields the
retry-later reply and leaves the session untouched; only full success
clears the session and confirms. -/
def handle_extra_info_db (s : Session) (m : Msg) (nowUtc : Int)
    (insertRes : Except Unit Int) (sendOk : Bool) : DbOut :=
  let orec := mkOrderRec s m nowUtc
  match insertRes with
  | .error _ => ⟨s, [.reply orderFailText], none⟩
  | .ok oid =>
    let formatted := build_order_message_for_user m.from_user
      orec.quantity orec.fio_receiver orec.address
      s.data.phone s.data.manual_phone (some (extraOf m))
      (fmtTime orec.datetime_moscow) (fmtTime orec.datetime_khabarovsk) oid
    if sendOk then
      ⟨clearSession, [.sendToChannel formatted, .reply orderAcceptedText], some orec⟩
    else
      ⟨s, [.reply orderFailText], some orec⟩

/-- `OrderHandler.handle_start` (db variant: no idle machinery). -/
def handle_start_db : Session × List Effect :=
  (setState clearSession .waiting_for_order_start, [.reply startGreetingText])

/-- `OrderHandler.handle_start_order` (db variant). -/
def handle_start_order_db (s : Session) : Session × List Effect :=
  (setState s .waiting_for_contact, [.reply contactPromptText])

/-- `OrderHandler.handle_contact` (db variant; same guard as the app one). -/
def handle_contact_db (s : Session) (m : Msg) : Session × List Effect :=
  match m.contact with
  | none => (s, [.reply contactRetryText])
  | some ct =>
    if truthyUserId ct.user_id then
      (setState (setPhone s (some ct.phone_number)) .waiting_for_quantity,
       [.reply quantityPromptText])
    else (s, [.reply contactRetryText])

/-- `OrderHandler.handle_quantity` (db variant, permissive: any text). -/
def handle_quantity_db (s : Session) (m : Msg) : Session × List Effect :=
  match m.text with
  | none => (s, [])
  | some raw =>
    (setState (setQuantity s (some (pyStrip raw))) .waiting_for_name,
     [.reply namePromptText])

/-- `OrderHandler.handle_name` (db variant). -/
def handle_name_db (s : Session) (m : Msg) : Session × List Effect :=
  match m.text with
  | none => (s, [])
  | some raw =>
    (setState (setFullName s (some (pyStrip raw))) .waiting_for_address,
     [.reply addressPromptText])

/-- `OrderHandler.handle_address` (db variant). -/
def handle_address_db (s : Session) (m : Msg) : Session × List Effect :=
  match m.text with
  | none => (s, [])
  | some raw =>
    (setState (setAddress s (some (pyStrip raw))) .waiting_for_phone,
     [.reply phonePromptText])

/-- `OrderHandler.handle_phone` (db variant): stores the trimmed text under
the separate `manual_phone` key. -/
def handle_phone_db (s : Session) (m : Msg) : Session × List Effect :=
  let phone_text : Option String :=
    match m.text with
    | some t => if pyTruthy t then some (pyStrip t) else none
    | none => none
  (setState (setManualPhone s phone_text) .waiting_for_extra_info,
   [.reply extraInfoPromptText])

/-- Per-message environment for the db-variant router: the inbound message,
the `now_utc` capture, and the insert/send outcomes. -/
structure Env where
  msg : Msg
  now : Int
  insertRes : Except Unit Int
  sendOk : Bool

/-- One router dispatch for the db-variant handlers (`build_router`
registration order with the catch-all fallback). -/
def routerStepDb (s : Session) (e : Env) : DbOut :=
  if isStartCommand e.msg then liftDb handle_start_db
  else if textEquals e.msg FAQ_BUTTON_TEXT then ⟨s, [.reply faqText], none⟩
  else if (s.state == some OrderState.waiting_for_order_start) &&
      textEquals e.msg START_ORDER_BUTTON_TEXT then liftDb (handle_start_order_db s)
  else if e.msg.contact.isSome && (s.state == some OrderState.waiting_for_contact) then
    liftDb (handle_contact_db s e.msg)
  else if (s.state == some OrderState.waiting_for_quantity) && msgTextTruthy e.msg then
    liftDb (handle_quantity_db s e.msg)
  else if (s.state == some OrderState.waiting_for_name) && msgTextTruthy e.msg then
    liftDb (handle_name_db s e.msg)
  else if (s.state == some OrderState.waiting_for_address) && msgTextTruthy e.msg then
    liftDb (handle_address_db s e.msg)
  else if (s.state == some OrderState.waiting_for_phone) && msgTextTruthy e.msg then
    liftDb (handle_phone_db s e.msg)
  else if (s.state == some OrderState.waiting_for_extra_info) && msgTextTruthy e.msg then
    handle_extra_info_db s e.msg e.now e.insertRes e.sendOk
  else if textEquals e.msg NEW_ORDER_BUTTON_TEXT then liftDb handle_start_db
  else ⟨clearSession, [.reply fallbackText], none⟩

/-- Sessions reachable from a fresh conversation (empty FSM context) by any
sequence of inbound messages under the db-variant router. -/
inductive ReachableDb : Session → Prop
  | init : ReachableDb clearSession
  | step (s : Session) (e : Env) : ReachableDb s → ReachableDb (routerStepDb s e).session

/-- All required order fields have been captured in the session. -/
def fieldsReady (s : Session) : Prop :=
  s.data.quantity.isSome = true ∧ s.data.full_name.isSome = true ∧
  s.data.address.isSome = true ∧ s.data.phone.isSome = true

/-- Per-state capture invariant of the db-variant conversation: each state
implies all the fields collected by the steps before it are present. -/
def stageInv (s : Session) : Prop :=
  (s.state = some OrderState.waiting_for_quantity →
    s.data.phone.isSome = true) ∧
  (s.state = some OrderState.waiting_for_name →
    s.data.phone.isSome = true ∧ s.data.quantity.isSome = true) ∧
  (s.state = some OrderState.waiting_for_address →
    s.data.phone.isSome = true ∧ s.data.quantity.isSome = true ∧
    s.data.full_name.isSome = true) ∧
  (s.state = some OrderState.waiting_for_phone →
    s.data.phone.isSome = true ∧ s.data.quantity.isSome = true ∧
    s.data.full_name.isSome = true ∧ s.data.address.isSome = true) ∧
  (s.state = some OrderState.waiting_for_extra_info → fieldsReady s)

/-! ## Helper lemmas -/

lemma stageInv_clear : stageInv clearSession := by
  refine ⟨?_, ?_, ?_, ?_, ?_⟩ <;> intro hx <;> exact Option.noConfusion hx

lemma stageInv_handle_start_db : stageInv handle_start_db.1 := by
  refine ⟨?_, ?_, ?_, ?_, ?_⟩ <;> intro hx <;> simp [handle_start_db, setState, clearSession] at hx

lemma stageInv_handle_start_order_db (s : Session) :
    stageInv (handle_start_order_db s).1 := by
  refine ⟨?_, ?_, ?_, ?_, ?_⟩ <;> intro hx <;>
    simp [handle_start_order_db, setState] at hx

lemma stageInv_handle_contact_db (s : Session) (m : Msg) (h : stageInv s) :
    stageInv (handle_contact_db s m).1 := by
  unfold handle_contact_db
  cases hm : m.contact with
  | none => exact h
  | some ct =>
    by_cases hu : truthyUserId ct.user_id = true
    · simp only [hu, if_true]
      refine ⟨?_, ?_, ?_, ?_, ?_⟩ <;> intro hx <;>
        simp [setState, setPhone] at hx ⊢
    · simp only [hu, if_false]
      exact h

lemma stageInv_handle_quantity_db (s : Session) (m : Msg)
    (hst : s.state = some OrderState.waiting_for_quantity) (h : stageInv s) :
    stageInv (handle_quantity_db s m).1 := by
  unfold handle_quantity_db
  cases hm : m.text with
  | none => exact h
  | some raw =>
    have hp : s.data.phone.isSome = true := h.1 hst
    refine ⟨?_, ?_, ?_, ?_, ?_⟩ <;> intro hx <;>
      simp [setState, setQuantity, hp] at hx ⊢

lemma stageInv_handle_name_db (s : Session) (m : Msg)
    (hst : s.state = some OrderState.waiting_for_name) (h : stageInv s) :
    stageInv (handle_name_db s m).1 := by
  unfold handle_name_db
  cases hm : m.text with
  | none => exact h
  | some raw =>
    have hpq := h.2.1 hst
    refine ⟨?_, ?_, ?_, ?_, ?_⟩ <;> intro hx <;>
      simp [setState, setFullName, hpq.1, hpq.2] at hx ⊢

lemma stageInv_handle_address_db (s : Session) (m : Msg)
    (hst : s.state = some OrderState.waiting_for_address) (h : stageInv s) :
    stageInv (handle_address_db s m).1 := by
  unfold handle_address_db
  cases hm : m.text with
  | none => exact h
  | some raw =>
    have hpq := h.2.2.1 hst
    refine ⟨?_, ?_, ?_, ?_, ?_⟩ <;> intro hx <;>
      simp [setState, setAddress, hpq.1, hpq.2.1, hpq.2.2] at hx ⊢

lemma stageInv_handle_phone_db (s : Session) (m : Msg)
    (hst : s.state = some OrderState.waiting_for_phone) (h : stageInv s) :
    stageInv (handle_phone_db s m).1 := by
  unfold handle_phone_db
  have hpq := h.2.2.2.1 hst
  refine ⟨?_, ?_, ?_, ?_, ?_⟩ <;> intro hx <;>
    simp [setState, setManualPhone, fieldsReady,
      hpq.1, hpq.2.1, hpq.2.2.1, hpq.2.2.2] at hx ⊢

lemma stageInv_handle_extra_info_db (s : Session) (m : Msg) (nowUtc : Int)
    (insertRes : Except Unit Int) (sendOk : Bool) (h : stageInv s) :
    stageInv (handle_extra_info_db s m nowUtc insertRes sendOk).session := by
  unfold handle_extra_info_db
  cases insertRes with
  | error err => exact h
  | ok oid =>
    by_cases hs : sendOk = true
    · simp only [hs, if_true]
      exact stageInv_clear
    · simp only [hs, if_false]
      exact h

lemma stageInv_routerStepDb (s : Session) (e : Env) (h : stageInv s) :
    stageInv (routerStepDb s e).session := by
  unfold routerStepDb
  split
  next h1 => exact stageInv_handle_start_db
  next h1 =>
    split
    next h2 => exact h
    next h2 =>
      split
      next h3 => exact stageInv_handle_start_order_db s
      next h3 =>
        split
        next h4 => exact stageInv_handle_contact_db s e.msg h
        next h4 =>
          split
          next h5 =>
            have hst : s.state = some OrderState.waiting_for_quantity := by
              have h5x := h5
              rw [Bool.and_eq_true] at h5x
              simpa using h5x.1
            exact stageInv_handle_quantity_db s e.msg hst h
          next h5 =>
            split
            next h6 =>
              have hst : s.state = some OrderState.waiting_for_name := by
                have h6x := h6
                rw [Bool.and_eq_true] at h6x
                simpa using h6x.1
              exact stageInv_handle_name_db s e.msg hst h
            next h6 =>
              split
              next h7 =>
                have hst : s.state = some OrderState.waiting_for_address := by
                  have h7x := h7
                  rw [Bool.and_eq_true] at h7x
                  simpa using h7x.1
                exact stageInv_handle_address_db s e.msg hst h
              next h7 =>
                split
                next h8 =>
                  have hst : s.state = some OrderState.waiting_for_phone := by
                    have h8x := h8
                    rw [Bool.and_eq_true] at h8x
                    simpa using h8x.1
                  exact stageInv_handle_phone_db s e.msg hst h
                next h8 =>
                  split
                  next h9 =>
                    exact stageInv_handle_extra_info_db s e.msg e.now e.insertRes e.sendOk h
                  next h9 =>
                    split
                    next h10 => exact stageInv_handle_start_db
                    next h10 => exact stageInv_clear

/-- Every session reachable under the db-variant router satisfies the
per-state capture invariant. -/
lemma reachableDb_stageInv (s : Session) (hr : ReachableDb s) : stageInv s := by
  induction hr with
  | init => exact stageInv_clear
  | step s e _ ih => exact stageInv_routerStepDb s e ih

/-- When the idle check does not fire, it leaves the FSM state and the
collected data untouched (at most `last_activity_at` is initialised) and
emits no message. -/
lemma check_idle_not_handled (s : Session) (now : Int)
    (h : (check_and_handle_idle s now).handled = false) :
    (check_and_handle_idle s now).session.state = s.state ∧
    (check_and_handle_idle s now).session.data = s.data ∧
    (check_and_handle_idle s now).effects = [] := by
  unfold check_and_handle_idle at h ⊢
  cases hlv : s.last_activity_at with
  | none => simp [hlv, touch_activity]
  | some tv =>
    cases htv : parseStoredTime tv with
    | none => simp [hlv, htv, touch_activity]
    | some last =>
      by_cases hc : idleSecondsOf now last ≥ IDLE_THRESHOLD_SECONDS
      · rw [hlv] at h
        simp [htv, hc] at h
      · simp [hlv, htv, hc]

lemma pyOrDefault_dash_ne_empty (v : Option String) : pyOrDefault v "—" ≠ "" := by
  cases v with
  | none => simp [pyOrDefault]
  | some s =>
    by_cases hs : s == ""
    · simp [pyOrDefault, hs]
    · simp only [pyOrDefault, hs, if_false]
      simpa using hs

/-! ## Claim theorems -/

/-- C2: for a session with a recorded `last_activity_at = t`, an inbound
message at time `now` with `now - t ≥ 540` makes the idle check clear the
session, emit the idle-timeout notice, and report the message as handled
(so it is discarded without any state-machine transition); with
`now - t ≤ 539` the idle check passes the message through untouched. -/
theorem idle_expiry_boundary (s : Session) (now t : Int)
    (h : s.last_activity_at = some (StoredTime.num t)) :
    (now - t ≥ 540 →
      check_and_handle_idle s now =
        ⟨clearSession, [Effect.reply idleTimeoutText], true⟩) ∧
    (now - t ≤ 539 →
      check_and_handle_idle s now = ⟨s, [], false⟩) ∧
    (now - t ≥ 540 → ∀ m : Msg,
      handle_quantity_app s m now =
        Except.ok (clearSession, [Effect.reply idleTimeoutText])) := by
  have hexp : now - t ≥ 540 →
      check_and_handle_idle s now =
        ⟨clearSession, [Effect.reply idleTimeoutText], true⟩ := by
    intro hge
    have hc : idleSecondsOf now t ≥ IDLE_THRESHOLD_SECONDS := by
      unfold idleSecondsOf IDLE_THRESHOLD_SECONDS
      omega
    simp [check_and_handle_idle, h, parseStoredTime, hc]
  refine ⟨hexp, ?_, ?_⟩
  · intro hle
    have hc : ¬ idleSecondsOf now t ≥ IDLE_THRESHOLD_SECONDS := by
      unfold idleSecondsOf IDLE_THRESHOLD_SECONDS
      omega
    simp [check_and_handle_idle, h, parseStoredTime, hc]
  · intro hge m
    simp [handle_quantity_app, hexp hge]

/-- Concrete session used by the C2 witness. -/
def idleWitnessSession : Session :=
  { state := some OrderState.waiting_for_quantity
    data := { phone := some "+79990000000" }
    last_activity_at := some (StoredTime.num 0) }

/-- C2 witness: at exactly the 540-second boundary the session expires; at
539 seconds it does not. -/
theorem idle_expiry_boundary_witness :
    check_and_handle_idle idleWitnessSession 540 =
      ⟨clearSession, [Effect.reply idleTimeoutText], true⟩ ∧
    check_and_handle_idle idleWitnessSession 539 =
      ⟨idleWitnessSession, [], false⟩ ∧
    handle_quantity_app idleWitnessSession ⟨some "5", none, ⟨77, "Ivan", none⟩⟩ 600 =
      Except.ok (clearSession, [Effect.reply idleTimeoutText]) :=
  ⟨(idle_expiry_boundary idleWitnessSession 540 0 rfl).1 (by decide),
   (idle_expiry_boundary idleWitnessSession 539 0 rfl).2.1 (by decide),
   (idle_expiry_boundary idleWitnessSession 600 0 rfl).2.2 (by decide)
     ⟨some "5", none, ⟨77, "Ivan", none⟩⟩⟩

/-- C10: the idle computation clamps at zero, so a stored `last_activity_at`
in the future (`now < t`) gives `idle_seconds = 0`, the expiry branch is
unreachable and the message is processed normally with the session
untouched; a stored timestamp that fails to parse as a number (`strBad`)
is treated exactly like an absent one: reset to `now` and proceed. -/
theorem idle_clamp_future_and_unparsable (s : Session) (now t : Int) :
    (now < t → idleSecondsOf now t = 0) ∧
    (s.last_activity_at = some (StoredTime.num t) → now < t →
      check_and_handle_idle s now = ⟨s, [], false⟩) ∧
    (s.last_activity_at = some StoredTime.strBad →
      check_and_handle_idle s now = ⟨touch_activity s now, [], false⟩) ∧
    (s.last_activity_at = none →
      check_and_handle_idle s now = ⟨touch_activity s now, [], false⟩) := by
  refine ⟨?_, ?_, ?_, ?_⟩
  · intro hlt
    unfold idleSecondsOf
    omega
  · intro h hlt
    have hc : ¬ idleSecondsOf now t ≥ IDLE_THRESHOLD_SECONDS := by
      unfold idleSecondsOf IDLE_THRESHOLD_SECONDS
      omega
    simp [check_and_handle_idle, h, parseStoredTime, hc]
  · intro h
    simp [check_and_handle_idle, h, parseStoredTime]
  · intro h
    simp [check_and_handle_idle, h]

/-- Concrete session with a future timestamp for the C10 witness. -/
def futureWitnessSession : Session :=
  { state := some OrderState.waiting_for_name
    data := { phone := some "+79990000000", quantity := some "2" }
    last_activity_at := some (StoredTime.num 1000000) }

/-- Concrete session with an unparsable stored timestamp for the C10 witness. -/
def badTimeWitnessSession : Session :=
  { state := some OrderState.waiting_for_name
    data := { phone := some "+79990000000", quantity := some "2" }
    last_activity_at := some StoredTime.strBad }

/-- C10 witness: a timestamp 1000000 with `now = 3` clamps to zero idle and
passes through; an unparsable timestamp is reset to `now` and passes
through. -/
theorem idle_clamp_future_and_unparsable_witness :
    idleSecondsOf 3 1000000 = 0 ∧
    check_and_handle_idle futureWitnessSession 3 =
      ⟨futureWitnessSession, [], false⟩ ∧
    check_and_handle_idle badTimeWitnessSession 3 =
      ⟨touch_activity badTimeWitnessSession 3, [], false⟩ :=
  ⟨(idle_clamp_future_and_unparsable futureWitnessSession 3 1000000).1 (by decide),
   (idle_clamp_future_and_unparsable futureWitnessSession 3 1000000).2.1 rfl (by decide),
   (idle_clamp_future_and_unparsable badTimeWitnessSession 3 1000000).2.2.1 rfl⟩

/-- Concrete session sitting in `awaiting_contact` (used by C1/C4 inputs). -/
def contactStageSession : Session :=
  { state := some OrderState.waiting_for_contact
    data := {}
    last_activity_at := some (StoredTime.num 100) }

/-- Concrete requesting user for counterexamples and witnesses. -/
def ivanUser : TgUser := ⟨77, "Ivan Ivanov", some "ivan"⟩

/-- A plain text message that is neither a command nor a button label. -/
def helloMsg : Msg := ⟨some "hello", none, ivanUser⟩

/-- App-router environment delivering `helloMsg` at time 100. -/
def helloEnvApp : EnvApp := ⟨helloMsg, 100, true⟩

/-- C1 counterexample: in `awaiting_contact`, the plain text message
`"hello"` does not leave the session unchanged — it falls through to the
router fallback, which clears the whole session. -/
theorem awaiting_contact_text_clears_counterexample :
    (routerStepApp contactStageSession helloEnvApp).1 = clearSession ∧
    (routerStepApp contactStageSession helloEnvApp).2 =
      [Effect.reply fallbackText] ∧
    clearSession.state ≠ some OrderState.waiting_for_contact := by
  refine ⟨by decide, by decide, by decide⟩

/-- C1 (amended): in `awaiting_contact`, only an invalid contact payload is
re-prompted with state and fields unchanged; a non-contact message that is
not the `/start` command, the FAQ button or the new-order button reaches
the catch-all fallback, which clears the session and asks for a restart. -/
theorem awaiting_contact_non_contact_dispatch :
    (∀ (s : Session) (e : EnvApp),
      s.state = some OrderState.waiting_for_contact →
      e.msg.contact = none →
      isStartCommand e.msg = false →
      textEquals e.msg FAQ_BUTTON_TEXT = false →
      textEquals e.msg NEW_ORDER_BUTTON_TEXT = false →
      routerStepApp s e = (clearSession, [Effect.reply fallbackText])) ∧
    (∀ (s : Session) (m : Msg) (now : Int) (ct : Contact),
      (check_and_handle_idle s now).handled = false →
      m.contact = some ct →
      truthyUserId ct.user_id = false →
      (handle_contact_app s m now).1.state = s.state ∧
      (handle_contact_app s m now).1.data = s.data ∧
      (handle_contact_app s m now).2 = [Effect.reply contactRetryText]) := by
  constructor
  · intro s e hst hc hstart hfaq hnew
    simp [routerStepApp, hst, hc, hstart, hfaq, hnew]
  · intro s m now ct hidle hct hu
    obtain ⟨h1, h2, _⟩ := check_idle_not_handled s now hidle
    refine ⟨?_, ?_, ?_⟩ <;>
      simp [handle_contact_app, hidle, hct, hu, touch_activity, h1, h2]

/-- A shared-contact payload whose sender hid their `user_id`. -/
def orphanContactMsg : Msg := ⟨none, some ⟨none, "+79990000000"⟩, ivanUser⟩

/-- C1 witness: the fallback fires on `"hello"`, and an invalid contact
payload is re-prompted in place. -/
theorem awaiting_contact_non_contact_dispatch_witness :
    routerStepApp contactStageSession helloEnvApp =
      (clearSession, [Effect.reply fallbackText]) ∧
    ((handle_contact_app contactStageSession orphanContactMsg 100).1.state =
        contactStageSession.state ∧
      (handle_contact_app contactStageSession orphanContactMsg 100).1.data =
        contactStageSession.data ∧
      (handle_contact_app contactStageSession orphanContactMsg 100).2 =
        [Effect.reply contactRetryText]) :=
  ⟨awaiting_contact_non_contact_dispatch.1 contactStageSession helloEnvApp
      rfl rfl (by decide) (by decide) (by decide),
   awaiting_contact_non_contact_dispatch.2 contactStageSession orphanContactMsg
      100 ⟨none, "+79990000000"⟩ (by decide) rfl rfl⟩

/-- A shared-contact payload with a valid `user_id` but an empty phone. -/
def emptyPhoneContactMsg : Msg := ⟨none, some ⟨some 5, ""⟩, ivanUser⟩

/-- C4 counterexample: a shared contact with an *empty* phone but a valid
`user_id` is accepted (phone `""` stored, state advances), and a contact
with a *non-empty* phone but no `user_id` is rejected — acceptance is not
keyed on the phone value as the claim states. -/
theorem contact_acceptance_counterexample :
    (handle_contact_app contactStageSession emptyPhoneContactMsg 100).1.state =
      some OrderState.waiting_for_quantity ∧
    (handle_contact_app contactStageSession emptyPhoneContactMsg 100).1.data.phone =
      some "" ∧
    (handle_contact_app contactStageSession orphanContactMsg 100).1.state =
      some OrderState.waiting_for_contact := by
  refine ⟨by decide, by decide, by decide⟩

/-- C4 (amended): in `awaiting_contact`, a shared-contact payload is
accepted — its phone stored (even when empty) and the state advanced to
`awaiting_quantity` — exactly when the contact carries a truthy
`user_id`; otherwise the handler re-prompts with state and fields
unchanged. -/
theorem contact_acceptance_by_user_id (s : Session) (m : Msg) (now : Int)
    (ct : Contact)
    (hidle : (check_and_handle_idle s now).handled = false)
    (hct : m.contact = some ct) :
    (truthyUserId ct.user_id = true →
      (handle_contact_app s m now).1.state = some OrderState.waiting_for_quantity ∧
      (handle_contact_app s m now).1.data.phone = some ct.phone_number ∧
      (handle_contact_app s m now).2 = [Effect.reply quantityPromptText]) ∧
    (truthyUserId ct.user_id = false →
      (handle_contact_app s m now).1.state = s.state ∧
      (handle_contact_app s m now).1.data = s.data ∧
      (handle_contact_app s m now).2 = [Effect.reply contactRetryText]) := by
  obtain ⟨h1, h2, _⟩ := check_idle_not_handled s now hidle
  constructor
  · intro hu
    refine ⟨?_, ?_, ?_⟩ <;>
      simp [handle_contact_app, hidle, hct, hu, touch_activity, setState,
        setPhone, h1, h2]
  · intro hu
    refine ⟨?_, ?_, ?_⟩ <;>
      simp [handle_contact_app, hidle, hct, hu, touch_activity, h1, h2]

/-- A shared-contact payload with both `user_id` and phone present. -/
def fullContactMsg : Msg := ⟨none, some ⟨some 77, "+79990000000"⟩, ivanUser⟩

/-- C4 witness: a full contact is accepted, an orphan contact re-prompted. -/
theorem contact_acceptance_by_user_id_witness :
    ((handle_contact_app contactStageSession fullContactMsg 100).1.state =
        some OrderState.waiting_for_quantity ∧
      (handle_contact_app contactStageSession fullContactMsg 100).1.data.phone =
        some "+79990000000" ∧
      (handle_contact_app contactStageSession fullContactMsg 100).2 =
        [Effect.reply quantityPromptText]) ∧
    ((handle_contact_app contactStageSession orphanContactMsg 100).1.state =
        contactStageSession.state ∧
      (handle_contact_app contactStageSession orphanContactMsg 100).1.data =
        contactStageSession.data ∧
      (handle_contact_app contactStageSession orphanContactMsg 100).2 =
        [Effect.reply contactRetryText]) :=
  ⟨(contact_acceptance_by_user_id contactStageSession fullContactMsg 100
      ⟨some 77, "+79990000000"⟩ (by decide) rfl).1 (by decide),
   (contact_acceptance_by_user_id contactStageSession orphanContactMsg 100
      ⟨none, "+79990000000"⟩ (by decide) rfl).2 rfl⟩

/-- Concrete session sitting in `awaiting_quantity` with a captured phone. -/
def quantityStageSession : Session :=
  { state := some OrderState.waiting_for_quantity
    data := { phone := some "+79990000000" }
    last_activity_at := some (StoredTime.num 100) }

/-- A non-numeric quantity input. -/
def abcMsg : Msg := ⟨some "abc", none, ivanUser⟩

/-- The quantity input `" 2 "` (strips to the digit string `"2"`). -/
def twoMsg : Msg := ⟨some " 2 ", none, ivanUser⟩

/-- A quantity input of the superscript two: `isdigit()` is true but
`int()` raises `ValueError`. -/
def sup2Msg : Msg := ⟨some "²", none, ivanUser⟩

/-- App-router environment delivering the superscript-two quantity input. -/
def sup2EnvApp : EnvApp := ⟨sup2Msg, 100, true⟩

/-- A quantity input of the Arabic-Indic digit two, a non-ASCII Unicode
decimal digit: `isdigit()` is true and `int()` parses it as 2. -/
def arabTwoMsg : Msg := ⟨some "٢", none, ivanUser⟩

/-- The session after `"٢"` has been accepted as the quantity. -/
def arabTwoAccepted : Session :=
  { state := some OrderState.waiting_for_name
    data := { phone := some "+79990000000", quantity := some "٢" }
    last_activity_at := some (StoredTime.num 100) }

/-- C6 counterexample: at the quantity step the superscript `"²"` passes
`isdigit()` but `int()` raises, so the exception escapes to the router's
error handler, which clears the whole session and sends the restart
notice — neither of the claim's prescribed outcomes (re-prompt with no
change, or store-and-advance); and the Arabic-Indic `"٢"`, which is not a
string of ASCII digits, is accepted, stored verbatim and advances the
state. -/
theorem strict_quantity_unicode_counterexample :
    routerStepApp quantityStageSession sup2EnvApp =
      (clearSession, [Effect.reply errorsRestartText]) ∧
    quantityStageSession.state = some OrderState.waiting_for_quantity ∧
    clearSession.state = none ∧
    handle_quantity_app quantityStageSession arabTwoMsg 100 =
      Except.ok (arabTwoAccepted, [Effect.reply namePromptText]) := by
  exact ⟨by decide, rfl, rfl, rfl⟩

/-- C6 (amended): in the strict-validation (app) variant, for a text input
whose stripped form lies in the exactly-modelled character repertoire:
if `isdigit()` fails, or the parsed value is `≤ 0`, the input is rejected
with a re-prompt and no state or field change; if it is a decimal-digit
string (ASCII or other Unicode decimal digits) of positive value, the
stripped text is stored as the quantity and the state advances to
`awaiting_name`; but an input that passes `isdigit()` while `int()`
cannot parse it (digit-property characters such as `²`) makes the handler
raise `ValueError`, and the router's error handler then clears the
session and sends the restart notice instead of a re-prompt. -/
theorem strict_quantity_validation (s : Session) (m : Msg) (now : Int)
    (raw : String)
    (hidle : (check_and_handle_idle s now).handled = false)
    (htext : m.text = some raw)
    (hexact : (pyStrip raw).toList.all charClassExact = true) :
    (pyIsDigit (pyStrip raw) = false →
      handle_quantity_app s m now =
        Except.ok ((check_and_handle_idle s now).session,
          [Effect.reply quantityRejectText]) ∧
      (check_and_handle_idle s now).session.state = s.state ∧
      (check_and_handle_idle s now).session.data = s.data) ∧
    (∀ v : Nat, pyIsDigit (pyStrip raw) = true →
      pyIntParse (pyStrip raw) = some v → v ≤ 0 →
      handle_quantity_app s m now =
        Except.ok ((check_and_handle_idle s now).session,
          [Effect.reply quantityRejectText]) ∧
      (check_and_handle_idle s now).session.state = s.state ∧
      (check_and_handle_idle s now).session.data = s.data) ∧
    (∀ v : Nat, pyIsDigit (pyStrip raw) = true →
      pyIntParse (pyStrip raw) = some v → 0 < v →
      handle_quantity_app s m now =
        Except.ok
          (setState
            (setQuantity
              (touch_activity (check_and_handle_idle s now).session now)
              (some (pyStrip raw)))
            OrderState.waiting_for_name,
           [Effect.reply namePromptText])) ∧
    (pyIsDigit (pyStrip raw) = true → pyIntParse (pyStrip raw) = none →
      handle_quantity_app s m now = Except.error PyError.valueError ∧
      (s.state = some OrderState.waiting_for_quantity →
        isStartCommand m = false →
        textEquals m FAQ_BUTTON_TEXT = false →
        ∀ sendOk : Bool,
          routerStepApp s ⟨m, now, sendOk⟩ =
            (clearSession, [Effect.reply errorsRestartText]))) := by
  obtain ⟨h1, h2, _⟩ := check_idle_not_handled s now hidle
  refine ⟨?_, ?_, ?_, ?_⟩
  · intro hd
    refine ⟨?_, h1, h2⟩
    simp [handle_quantity_app, hidle, htext, hd]
  · intro v hd hv hle
    have hv0 : v = 0 := Nat.le_zero.mp hle
    subst hv0
    refine ⟨?_, h1, h2⟩
    simp [handle_quantity_app, hidle, htext, hd, hv]
  · intro v hd hv hpos
    have hle : ¬ v ≤ 0 := by omega
    simp [handle_quantity_app, hidle, htext, hd, hv, hle]
  · intro hd hnone
    have herr : handle_quantity_app s m now = Except.error PyError.valueError := by
      simp [handle_quantity_app, hidle, htext, hd, hnone]
    refine ⟨herr, ?_⟩
    intro hst hstart hfaq sendOk
    have hne : raw ≠ "" := by
      intro hraw
      rw [hraw] at hd
      simp [pyStrip, pyIsDigit] at hd
    have htru : msgTextTruthy m = true := by
      simp [msgTextTruthy, htext, pyTruthy, hne]
    simp [routerStepApp, hst, hstart, hfaq, htru, herr]

/-- C6 witness: `"abc"` is rejected in place, `" 2 "` is stored as `"2"`
and advances the state, and `"²"` raises, the router then clearing the
session. -/
theorem strict_quantity_validation_witness :
    (handle_quantity_app quantityStageSession abcMsg 100 =
      Except.ok (quantityStageSession, [Effect.reply quantityRejectText])) ∧
    (handle_quantity_app quantityStageSession twoMsg 100 =
      Except.ok
        ({ state := some OrderState.waiting_for_name
           data := { phone := some "+79990000000", quantity := some "2" }
           last_activity_at := some (StoredTime.num 100) },
         [Effect.reply namePromptText])) ∧
    (handle_quantity_app quantityStageSession sup2Msg 100 =
      Except.error PyError.valueError) ∧
    (routerStepApp quantityStageSession ⟨sup2Msg, 100, true⟩ =
      (clearSession, [Effect.reply errorsRestartText])) :=
  ⟨((strict_quantity_validation quantityStageSession abcMsg 100 "abc"
      (by decide) rfl (by decide)).1 (by decide)).1,
   (strict_quantity_validation quantityStageSession twoMsg 100 " 2 "
      (by decide) rfl (by decide)).2.2.1 2 (by decide) (by decide) (by decide),
   ((strict_quantity_validation quantityStageSession sup2Msg 100 "²"
      (by decide) rfl (by decide)).2.2.2 (by decide) (by decide)).1,
   ((strict_quantity_validation quantityStageSession sup2Msg 100 "²"
      (by decide) rfl (by decide)).2.2.2 (by decide) (by decide)).2
     rfl (by decide) (by decide) true⟩

/-- C9: in the app variant, `handle_phone` stores its result under the same
`phone` data key that `handle_contact` wrote — overwriting it regardless
of the previous value — preferring a contact payload's truthy phone over
the message text; and the submission step builds the operator message from
that single `phone` key only, so just one phone value survives. -/
theorem manual_phone_overwrites_contact_phone (s : Session) (m : Msg)
    (now : Int)
    (hidle : (check_and_handle_idle s now).handled = false) :
    ((handle_phone_app s m now).1.data.phone = phoneChoice m) ∧
    (∀ ct : Contact, m.contact = some ct → pyTruthy ct.phone_number = true →
      phoneChoice m = some ct.phone_number) ∧
    ((handle_phone_app s m now).1.state = some OrderState.waiting_for_extra_info) ∧
    (∀ (s2 : Session) (m2 : Msg) (now2 : Int),
      (check_and_handle_idle s2 now2).handled = false →
      (handle_extra_info_app s2 m2 now2 true).2 =
        [Effect.sendToChannel
          (build_order_message_for_user_app m2.from_user
            (pyOrDefault s2.data.quantity "—")
            (pyOrDefault s2.data.full_name "—")
            (pyOrDefault s2.data.address "—")
            s2.data.phone (some (extraOf m2))),
         Effect.reply orderAcceptedText]) := by
  refine ⟨?_, ?_, ?_, ?_⟩
  · simp [handle_phone_app, hidle, setState, setPhone, touch_activity]
  · intro ct hct hp
    simp [phoneChoice, hct, hp]
  · simp [handle_phone_app, hidle, setState, setPhone, touch_activity]
  · intro s2 m2 now2 h2'
    obtain ⟨_, hd2, _⟩ := check_idle_not_handled s2 now2 h2'
    simp [handle_extra_info_app, h2', hd2]

/-- Concrete session in `awaiting_phone` with every earlier field captured
(including the contact-shared phone). -/
def phoneStageSession : Session :=
  { state := some OrderState.waiting_for_phone
    data := { phone := some "+79990000000", quantity := some "2"
              full_name := some "Ivanov Ivan", address := some "Moscow, X 1" }
    last_activity_at := some (StoredTime.num 100) }

/-- A manually typed phone number message. -/
def manualPhoneMsg : Msg := ⟨some "+70001112233", none, ivanUser⟩

/-- C9 witness: typing a phone replaces the contact-shared `+79990000000`
under the `phone` key with `+70001112233`. -/
theorem manual_phone_overwrites_contact_phone_witness :
    (handle_phone_app phoneStageSession manualPhoneMsg 100).1.data.phone =
      some "+70001112233" ∧
    (handle_phone_app phoneStageSession manualPhoneMsg 100).1.state =
      some OrderState.waiting_for_extra_info :=
  ⟨(manual_phone_overwrites_contact_phone phoneStageSession manualPhoneMsg 100
      (by decide)).1,
   (manual_phone_overwrites_contact_phone phoneStageSession manualPhoneMsg 100
      (by decide)).2.2.1⟩

/-- C3: when `insert_order` raises during the final step, the handler sends
only the retry-later reply (no operator-channel dispatch), persists
nothing, and returns the session exactly as it was — so a resend of the
extra-info message retries submission from the same captured fields, as
shown by the success conjuncts. -/
theorem insert_failure_preserves_session (s : Session) (m : Msg)
    (nowUtc : Int) (sendOk : Bool) (oid : Int) :
    handle_extra_info_db s m nowUtc (Except.error ()) sendOk =
      ⟨s, [Effect.reply orderFailText], none⟩ ∧
    (handle_extra_info_db s m nowUtc (Except.ok oid) true).session =
      clearSession ∧
    (handle_extra_info_db s m nowUtc (Except.ok oid) true).persisted =
      some (mkOrderRec s m nowUtc) :=
  ⟨rfl, rfl, rfl⟩

/-- C7: any record the final step hands to persistence carries exactly one
shared instant: the Moscow and Khabarovsk columns are the single `now_utc`
capture shifted by each zone's fixed UTC offset, so their difference is
always the fixed 7-hour (25200-second) delta. -/
theorem timestamps_single_capture (s : Session) (m : Msg) (nowUtc : Int)
    (insertRes : Except Unit Int) (sendOk : Bool) (orec : OrderRec)
    (hp : (handle_extra_info_db s m nowUtc insertRes sendOk).persisted =
      some orec) :
    orec.datetime_moscow = nowUtc + moscowOffsetSeconds ∧
    orec.datetime_khabarovsk = nowUtc + vladivostokOffsetSeconds ∧
    orec.datetime_khabarovsk - orec.datetime_moscow = 25200 := by
  have horec : orec = mkOrderRec s m nowUtc := by
    cases insertRes with
    | error err => simp [handle_extra_info_db] at hp
    | ok oid =>
      by_cases hs : sendOk = true
      · simp [handle_extra_info_db, hs] at hp
        exact hp.symm
      · simp [handle_extra_info_db, hs] at hp
        exact hp.symm
  subst horec
  refine ⟨rfl, rfl, ?_⟩
  simp [mkOrderRec, orderTimestamps, moscowOffsetSeconds, vladivostokOffsetSeconds]

/-- C7 witness: a concrete successful submission at `now_utc = 1000`. -/
theorem timestamps_single_capture_witness :
    (mkOrderRec phoneStageSession manualPhoneMsg 1000).datetime_moscow =
      1000 + moscowOffsetSeconds ∧
    (mkOrderRec phoneStageSession manualPhoneMsg 1000).datetime_khabarovsk =
      1000 + vladivostokOffsetSeconds ∧
    (mkOrderRec phoneStageSession manualPhoneMsg 1000).datetime_khabarovsk -
      (mkOrderRec phoneStageSession manualPhoneMsg 1000).datetime_moscow = 25200 :=
  timestamps_single_capture phoneStageSession manualPhoneMsg 1000
    (Except.ok 1) true (mkOrderRec phoneStageSession manualPhoneMsg 1000) rfl

/-- A concrete operator message where both phone captures are empty strings. -/
def emptyPhonesMessage : String :=
  build_order_message_for_user ivanUser "2" "Ivanov Ivan" "Moscow, X 1"
    (some "") (some "") (some "ok") "M" "K" 7

/-- C8 counterexample: with both phone captures empty, the contact slot is
normalized to the placeholder but the manual slot is rendered blank — the
line `Телефон (ручной ввод): ` is followed directly by the line break, so
the claim that *each* empty value is rendered as a placeholder fails. -/
theorem operator_message_manual_phone_blank_counterexample :
    strContains emptyPhonesMessage "Телефон (контакт): —" = true ∧
    strContains emptyPhonesMessage "Телефон (ручной ввод): —" = false ∧
    strContains emptyPhonesMessage "Телефон (ручной ввод): \nФИО" = true := by
  refine ⟨by decide, by decide, by decide⟩

/-- C8 (amended): the operator summary always shows both phone slots side by
side, each present even when the other is empty; the contact-shared phone
is normalized so that empty/missing values render as the placeholder `—`,
but the manually-typed phone is interpolated verbatim — an empty string
renders blank and a missing value renders as the literal `None`. -/
theorem operator_message_phone_slots (user : TgUser) (q n a : String)
    (p mp e : Option String) (dm dk : String) (oid : Int) :
    build_order_message_for_user user q n a p mp e dm dk oid =
      "Новый заказ № " ++ toString oid ++ " \n\n" ++
      "Время Москва " ++ dm ++ "\n" ++
      "Время Хабаровск " ++ dk ++ "\n\n" ++
      "Имя в Telegram: " ++ user.full_name ++ "\n" ++
      "Username: " ++
        (match user.username with | some un => "@" ++ un | none => "—") ++ "\n" ++
      "User ID: " ++ toString user.id ++ "\n" ++
      "Телефон (контакт): " ++ normalize_phone p ++ "\n" ++
      "Телефон (ручной ввод): " ++ pyShowOptStr mp ++ "\n" ++
      "ФИО получателя: " ++ stripOrDash n ++ "\n" ++
      "Адрес: " ++ stripOrDash a ++ "\n" ++
      "Заказ: " ++ stripOrDash q ++ "\n" ++
      "Доп. информация: " ++ optStripOrDash e ∧
    normalize_phone (some "") = "—" ∧
    normalize_phone none = "—" ∧
    normalize_phone (some "   ") = "—" ∧
    pyShowOptStr (some "") = "" ∧
    pyShowOptStr none = "None" :=
  ⟨rfl, by decide, rfl, by decide, rfl, rfl⟩

/-- C5: an order record is handed to persistence only from a reachable
session sitting in `awaiting_extra_info`, in which all required fields
(`quantity`, `full_name`, `address`, a phone value) have been captured;
and the persisted record's recipient name and address are never empty. -/
theorem submission_requires_all_fields (s : Session) (e : Env)
    (orec : OrderRec) (hr : ReachableDb s)
    (hp : (routerStepDb s e).persisted = some orec) :
    s.state = some OrderState.waiting_for_extra_info ∧
    fieldsReady s ∧
    orec.fio_receiver ≠ "" ∧
    orec.address ≠ "" := by
  have hinv := reachableDb_stageInv s hr
  unfold routerStepDb at hp
  split at hp
  next h1 => simp [liftDb] at hp
  next h1 =>
    split at hp
    next h2 => simp at hp
    next h2 =>
      split at hp
      next h3 => simp [liftDb] at hp
      next h3 =>
        split at hp
        next h4 => simp [liftDb] at hp
        next h4 =>
          split at hp
          next h5 => simp [liftDb] at hp
          next h5 =>
            split at hp
            next h6 => simp [liftDb] at hp
            next h6 =>
              split at hp
              next h7 => simp [liftDb] at hp
              next h7 =>
                split at hp
                next h8 => simp [liftDb] at hp
                next h8 =>
                  split at hp
                  next h9 =>
                    have hst : s.state = some OrderState.waiting_for_extra_info := by
                      have h9x := h9
                      rw [Bool.and_eq_true] at h9x
                      simpa using h9x.1
                    have hready := hinv.2.2.2.2 hst
                    have horec : orec = mkOrderRec s e.msg e.now := by
                      cases hins : e.insertRes with
                      | error err => simp [handle_extra_info_db, hins] at hp
                      | ok oid =>
                        by_cases hs : e.sendOk = true
                        · simp [handle_extra_info_db, hins, hs] at hp
                          exact hp.symm
                        · simp [handle_extra_info_db, hins, hs] at hp
                          exact hp.symm
                    subst horec
                    exact ⟨hst, hready,
                      pyOrDefault_dash_ne_empty s.data.full_name,
                      pyOrDefault_dash_ne_empty s.data.address⟩
                  next h9 =>
                    split at hp
                    next h10 => simp [liftDb] at hp
                    next h10 => simp at hp

/-- Environments driving the happy-path conversation used by the C5 witness. -/
def env1 : Env := ⟨⟨some "/start", none, ivanUser⟩, 0, Except.ok 0, true⟩
def env2 : Env := ⟨⟨some START_ORDER_BUTTON_TEXT, none, ivanUser⟩, 0, Except.ok 0, true⟩
def env3 : Env := ⟨⟨none, some ⟨some 77, "+79990000000"⟩, ivanUser⟩, 0, Except.ok 0, true⟩
def env4 : Env := ⟨⟨some "2", none, ivanUser⟩, 0, Except.ok 0, true⟩
def env5 : Env := ⟨⟨some "Ivanov Ivan", none, ivanUser⟩, 0, Except.ok 0, true⟩
def env6 : Env := ⟨⟨some "Moscow, X 1", none, ivanUser⟩, 0, Except.ok 0, true⟩
def env7 : Env := ⟨⟨some "+70001112233", none, ivanUser⟩, 0, Except.ok 0, true⟩
def env8 : Env := ⟨⟨some "-", none, ivanUser⟩, 0, Except.ok 1, true⟩

def dbS1 : Session := (routerStepDb clearSession env1).session
def dbS2 : Session := (routerStepDb dbS1 env2).session
def dbS3 : Session := (routerStepDb dbS2 env3).session
def dbS4 : Session := (routerStepDb dbS3 env4).session
def dbS5 : Session := (routerStepDb dbS4 env5).session
def dbS6 : Session := (routerStepDb dbS5 env6).session
def dbS7 : Session := (routerStepDb dbS6 env7).session

/-- C5 witness: after the full happy-path conversation the session is a
reachable `awaiting_extra_info` session with every field captured, and the
record handed to persistence has a non-empty recipient name and address. -/
theorem submission_requires_all_fields_witness :
    dbS7.state = some OrderState.waiting_for_extra_info ∧
    fieldsReady dbS7 ∧
    (mkOrderRec dbS7 env8.msg env8.now).fio_receiver ≠ "" ∧
    (mkOrderRec dbS7 env8.msg env8.now).address ≠ "" :=
  submission_requires_all_fields dbS7 env8 (mkOrderRec dbS7 env8.msg env8.now)
    (ReachableDb.step dbS6 env7
      (ReachableDb.step dbS5 env6
        (ReachableDb.step dbS4 env5
          (ReachableDb.step dbS3 env4
            (ReachableDb.step dbS2 env3
              (ReachableDb.step dbS1 env2
                (ReachableDb.step clearSession env1 ReachableDb.init)))))))
    (by decide)

end IkorkaBot
